import Mathlib

/-!
Verification of the address-selection picker (muratsat/address_selection).

The repository's core is `src/components/AddressSelection.tsx` (two
revisions concatenated in the source tree: a geocoding revision with
search/reverse-geocode handlers, embedded below in namespace `Geo`, and a
pin-offset revision with the `MapController` feedback-loop guard and the
drawer state machine, embedded in namespace `Pin`), plus
`src/services/geocoding.ts` (namespace `Geocoding`).

Geographic coordinates and pixel coordinates are modelled as rationals;
the Leaflet map projection at a fixed zoom is an abstract pair of maps
between the two, since the map surface is an external collaborator.
-/

/-- A geographic coordinate: `Location { lat, lng }` from `types/location.ts`. -/
@[ext]
structure Location where
  lat : ℚ
  lng : ℚ
deriving DecidableEq, Repr

/-- A container-pixel point, as produced by Leaflet's `latLngToContainerPoint`. -/
@[ext]
structure Pixel where
  x : ℚ
  y : ℚ
deriving DecidableEq, Repr

/-- The default map center `BISHKEK_CENTER = { lat: 42.8746, lng: 74.5698 }`. -/
def BISHKEK_CENTER : Location := ⟨42.8746, 74.5698⟩

/-- `PIN_OFFSET_PX = 150` from the pin-offset revision of `AddressSelection.tsx`. -/
def PIN_OFFSET_PX : ℚ := 150

/-- `COORD_EPSILON`: the spec's coordinate tolerance, e.g. `1e-4` degrees. -/
def COORD_EPSILON : ℚ := 1 / 10000

/-- The map surface's screen-pixel/geographic projection at the current zoom,
an external interface provided by Leaflet (`map.latLngToContainerPoint` and
`map.containerPointToLatLng`). -/
structure Proj where
  latLngToContainerPoint : Location → Pixel
  containerPointToLatLng : Pixel → Location

namespace Pin

/-- The programmatic-recenter target computation from `MapController`'s
`useEffect` (pin-offset revision): project `center` to container pixels,
shift `y` by `-PIN_OFFSET_PX`, project back; the result is passed to
`map.setView`. This is the spec's `toOptical`. -/
def toOptical (m : Proj) (center : Location) : Location :=
  let targetPoint := m.latLngToContainerPoint center
  let offsetPoint : Pixel := ⟨targetPoint.x, targetPoint.y - PIN_OFFSET_PX⟩
  m.containerPointToLatLng offsetPoint

/-- The under-the-pin computation from `MapController`'s `moveend` handler:
project the map center to container pixels, shift `y` by `+PIN_OFFSET_PX`,
project back. This is the spec's `toLogical`. -/
def toLogical (m : Proj) (mapCenter : Location) : Location :=
  let centerPoint := m.latLngToContainerPoint mapCenter
  let offsetPoint : Pixel := ⟨centerPoint.x, centerPoint.y + PIN_OFFSET_PX⟩
  m.containerPointToLatLng offsetPoint

/-- The skip condition of `MapController`'s `useEffect`: the programmatic
recenter is skipped exactly when `pendingCenter.current` is non-null and its
`lat` and `lng` are strictly (`===`) equal to the incoming `center`'s. Returns
`true` when the recenter is skipped. -/
def recenterSkipped (pendingCenter : Option Location) (center : Location) : Bool :=
  match pendingCenter with
  | some p => p.lat = center.lat && p.lng = center.lng
  | none => false

/-- Events reaching `MapController`: a change of the `center` prop (which runs
the recenter `useEffect`), and the map surface's `movestart` / `moveend`
notifications (`moveend` carries `map.getCenter()`). -/
inductive CamEvent where
  | centerChanged (center : Location)
  | movestart
  | moveend (mapCenter : Location)
deriving DecidableEq, Repr

/-- What `MapController` forwards to its owner `AddressSelection`: a call to
`onMoveStart()` or a call to `onMoveEnd(location)`. -/
inductive Forwarded where
  | moveStart
  | moveEnd (logical : Location)
deriving DecidableEq, Repr

/-- The two refs of `MapController` (pin-offset revision):
`isProgrammaticMove` and `pendingCenter`. -/
structure ControllerState where
  isProgrammaticMove : Bool
  pendingCenter : Option Location
deriving DecidableEq, Repr

/-- One step of `MapController` (pin-offset revision): the recenter
`useEffect` either skips (clearing `pendingCenter`) or marks the move as
programmatic before calling `map.setView`; `movestart` calls `onMoveStart()`
only when no programmatic move is pending; `moveend` during a programmatic
move clears the marker and returns early, otherwise it computes the
under-the-pin location, records it in `pendingCenter` and calls
`onMoveEnd`. Returns the new ref state and the forwarded calls. -/
def step (m : Proj) (s : ControllerState) : CamEvent → ControllerState × List Forwarded
  | .centerChanged center =>
    if recenterSkipped s.pendingCenter center then
      ({ s with pendingCenter := none }, [])
    else
      ({ s with isProgrammaticMove := true }, [])
  | .movestart =>
    if s.isProgrammaticMove then (s, []) else (s, [.moveStart])
  | .moveend mapCenter =>
    if s.isProgrammaticMove then
      ({ s with isProgrammaticMove := false }, [])
    else
      let logical := toLogical m mapCenter
      ({ s with pendingCenter := some logical }, [.moveEnd logical])

/-- Run `MapController` over a sequence of camera events, collecting every
call forwarded to `AddressSelection`. -/
def runEvents (m : Proj) (s : ControllerState) : List CamEvent → ControllerState × List Forwarded
  | [] => (s, [])
  | e :: es =>
    let r1 := step m s e
    let r2 := runEvents m r1.1 es
    (r2.1, r1.2 ++ r2.2)

/-- `DrawerState` from `BottomSheet.tsx`: the view states of the picker. -/
inductive DrawerState where
  | panning
  | preview
  | search
deriving DecidableEq, Repr

/-- The initial drawer state: `useState<DrawerState>("preview")`. -/
def initialDrawerState : DrawerState := .preview

/-- `handleMapMoveStart` of `AddressSelection` (pin-offset revision): a
forwarded (user-driven) `movestart` sets the drawer to `panning` unless the
drawer is in `search`. -/
def handleMapMoveStart (d : DrawerState) : DrawerState :=
  if d ≠ .search then .panning else d

/-- The drawer transition of `handleMapMoveEnd` (pin-offset revision): a
forwarded `moveend` returns the drawer to `preview` only from `panning`
(the handler also records the new location via `setCenter`, modelled
separately). -/
def handleMapMoveEnd (d : DrawerState) : DrawerState :=
  if d = .panning then .preview else d

end Pin

/-- `Address` from `types/location.ts`; optional fields are `Option`. -/
structure Address where
  displayName : String
  street : Option String := none
  city : Option String := none
  district : Option String := none
  country : Option String := none
  postalCode : Option String := none
deriving DecidableEq, Repr

/-- `SearchResult` from `types/location.ts`. -/
structure SearchResult where
  id : String
  displayName : String
  location : Location
deriving DecidableEq, Repr

/-- The blank-query test `!query.trim()` of `geocoding.ts` and of the search
effect: true exactly when the query is empty or whitespace-only (every
character is whitespace), i.e. when the trimmed string is falsy. -/
def blankQuery (q : String) : Bool :=
  q.toList.all Char.isWhitespace

namespace Geocoding

/-- The optional `address` object of a Nominatim response
(`types/location.ts`), every field optional. -/
structure NominatimAddress where
  road : Option String := none
  suburb : Option String := none
  city : Option String := none
  state : Option String := none
  country : Option String := none
  postcode : Option String := none
deriving DecidableEq, Repr

/-- `NominatimResponse` from `types/location.ts`. Nominatim serialises `lat`
and `lon` as decimal strings and `searchLocation` applies `parseFloat`; the
numeric value is modelled directly as a rational. -/
structure NominatimResponse where
  place_id : ℕ
  lat : ℚ
  lon : ℚ
  display_name : String
  address : Option NominatimAddress := none
deriving DecidableEq, Repr

/-- JavaScript `a || b` on two possibly-absent strings: the left operand is
kept only when present and non-empty (truthy), else the right is returned. -/
def jsOr (a b : Option String) : Option String :=
  match a with
  | some s => if s = "" then b else some s
  | none => b

/-- `parseAddress` from `geocoding.ts`: `street` is `address?.road`, `city`
is `address?.city || address?.suburb`, `district` is `address?.suburb`. -/
def parseAddress (nominatimData : NominatimResponse) : Address :=
  { displayName := nominatimData.display_name
    street := nominatimData.address.bind (fun a => a.road)
    city := jsOr (nominatimData.address.bind (fun a => a.city))
      (nominatimData.address.bind (fun a => a.suburb))
    district := nominatimData.address.bind (fun a => a.suburb)
    country := nominatimData.address.bind (fun a => a.country)
    postalCode := nominatimData.address.bind (fun a => a.postcode) }

/-- The error values thrown by `geocoding.ts`: a fetch-level network failure,
or the `Error` thrown on a non-2xx (`!response.ok`) response. Both are
caught, logged and rethrown, so the caller sees the rejection. -/
inductive GeoError where
  | network
  | httpNotOk
deriving DecidableEq, Repr

/-- The outcome of one `fetch` against the gateway, with the parsed body on
success. -/
inductive FetchOutcome (α : Type) where
  | ok (body : α)
  | httpNotOk
  | networkFailure
deriving DecidableEq, Repr

/-- `reverseGeocode` from `geocoding.ts`: on a 2xx response the body is
parsed with `parseAddress`; a non-2xx response or network failure is thrown
(caught, logged, and rethrown — the promise rejects). Rejection is embedded
as `Except.error`. -/
def reverseGeocode (r : FetchOutcome NominatimResponse) : Except GeoError Address :=
  match r with
  | .ok body => .ok (parseAddress body)
  | .httpNotOk => .error .httpNotOk
  | .networkFailure => .error .network

/-- `searchLocation` from `geocoding.ts`: an empty or whitespace-only query
resolves to `[]` without a fetch; otherwise the response items are mapped to
`SearchResult`s, and failures are rethrown as with `reverseGeocode`. -/
def searchLocation (query : String) (r : FetchOutcome (List NominatimResponse)) :
    Except GeoError (List SearchResult) :=
  if blankQuery query then .ok []
  else
    match r with
    | .ok data => .ok (data.map fun item =>
        { id := toString item.place_id
          displayName := item.display_name
          location := { lat := item.lat, lng := item.lon } })
    | .httpNotOk => .error .httpNotOk
    | .networkFailure => .error .network

end Geocoding

namespace Geo

/-- The React state of `AddressSelection` (geocoding revision): `center`,
`isPanning`, `loading`, `address`, `searchQuery`, `searchResults`,
`isSearching`, `showResults`. -/
structure AppState where
  center : Location
  isPanning : Bool
  loading : Bool
  address : Option Address
  searchQuery : String
  searchResults : List SearchResult
  isSearching : Bool
  showResults : Bool
deriving DecidableEq, Repr

/-- The `useState` initial values of `AddressSelection` (geocoding
revision): the default center, no panning, not loading, no address, empty
query, no results. -/
def initialState : AppState :=
  { center := BISHKEK_CENTER
    isPanning := false
    loading := false
    address := none
    searchQuery := ""
    searchResults := []
    isSearching := false
    showResults := false }

/-- The synchronous prefix of `handleMapMoveEnd` (geocoding revision), up to
the `await reverseGeocode`: `setCenter`, `setIsPanning(false)`,
`setLoading(true)`, and the reverse-geocode request is issued. -/
def handleMapMoveEndIssue (s : AppState) (newLocation : Location) : AppState :=
  { s with center := newLocation, isPanning := false, loading := true }

/-- The continuation of `handleMapMoveEnd` after its `reverseGeocode` call
resolves: `setLoading(false)`, `setAddress(newAddress)`. There is no
sequence-number or staleness check before applying the response. -/
def handleMapMoveEndResolve (s : AppState) (newAddress : Address) : AppState :=
  { s with loading := false, address := some newAddress }

/-- `handleMapMoveEnd` run to completion against a single fetch outcome: on
success both phases run; on failure the awaited promise rejects inside the
handler, which has no `try`/`catch`, so the continuation never runs and the
rejection escapes (returned as `some` error) with the state as of the
issue phase. -/
def handleMapMoveEnd (s : AppState) (newLocation : Location)
    (r : Geocoding.FetchOutcome Geocoding.NominatimResponse) :
    AppState × Option Geocoding.GeoError :=
  let s1 := handleMapMoveEndIssue s newLocation
  match Geocoding.reverseGeocode r with
  | .ok a => (handleMapMoveEndResolve s1 a, none)
  | .error e => (s1, some e)

/-- An interleaving event of the reverse-geocode pipeline: a request being
issued by `handleMapMoveEnd` reaching its `await`, or an in-flight request's
response being applied by the continuation. The code applies responses in
arrival order with no staleness guard. -/
inductive RevEvent where
  | issue (loc : Location)
  | resolve (a : Address)
deriving DecidableEq, Repr

/-- Apply one pipeline event to the React state, exactly as the two phases
of `handleMapMoveEnd` do. -/
def applyRevEvent (s : AppState) : RevEvent → AppState
  | .issue loc => handleMapMoveEndIssue s loc
  | .resolve a => handleMapMoveEndResolve s a

/-- Run a sequence of issue/resolve events in their delivery order on the
single-threaded event loop. -/
def runRevEvents (s : AppState) (es : List RevEvent) : AppState :=
  es.foldl applyRevEvent s

/-- The body of the debounced-search `setTimeout` callback, given the
settled outcome of `searchLocation`: on success `setSearchResults(results)`
and `setShowResults(true)`; on a rejection the `catch` sets
`setSearchResults([])`; the `finally` always sets `setIsSearching(false)`. -/
def searchEffectResolve (s : AppState)
    (outcome : Except Geocoding.GeoError (List SearchResult)) : AppState :=
  match outcome with
  | .ok results =>
    { s with
      searchResults := results
      showResults := true
      isSearching := false }
  | .error _ => { s with searchResults := [], isSearching := false }

/-- The debounced search effect of `AddressSelection` (geocoding revision)
over a time-stamped sequence of `searchQuery` values: each effect run first
clears the previous timeout; an empty (after `trim`) query schedules
nothing; otherwise a 300ms timeout is scheduled, which fires only if no
later query arrives within 300ms. Returns the (time, query) pairs whose
timeout callback actually fires. -/
def searchSettled : List (ℕ × String) → List (ℕ × String)
  | [] => []
  | [(t, q)] => if blankQuery q then [] else [(t, q)]
  | (t, q) :: (t2, q2) :: rest =>
    (if blankQuery q then [] else if t + 300 ≤ t2 then [(t, q)] else []) ++
      searchSettled ((t2, q2) :: rest)

/-- The camera channel of `AddressSelection` (geocoding revision): there is
no timer between a `moveend` and its gateway call — `handleMapMoveEnd`
awaits `reverseGeocode(newLocation)` directly, so every camera event at time
`t` issues its reverse-geocode request at that same time `t`. -/
def cameraResolutions : List (ℕ × Location) → List (ℕ × Location)
  | [] => []
  | (t, loc) :: rest => (t, loc) :: cameraResolutions rest

/-- `handleSearchResultSelect` (geocoding revision) run to completion: the
synchronous part closes the results dropdown and clears the query and
result list; when the map ref is set, `flyTo` starts, `setLoading(true)`,
and the 1500ms `setTimeout` continuation sets the center and awaits
`reverseGeocode`; on success `setAddress` then `setLoading(false)`; on a
rejection (no `try`/`catch` here either) the rest of the continuation is
skipped and the rejection escapes. -/
def handleSearchResultSelect (s : AppState) (mapReady : Bool)
    (result : SearchResult)
    (r : Geocoding.FetchOutcome Geocoding.NominatimResponse) :
    AppState × Option Geocoding.GeoError :=
  let s1 := { s with showResults := false, searchQuery := "", searchResults := ([] : List SearchResult) }
  if mapReady then
    let s2 := { s1 with loading := true }
    let s3 := { s2 with center := result.location }
    match Geocoding.reverseGeocode r with
    | .ok a => ({ s3 with address := some a, loading := false }, none)
    | .error e => (s3, some e)
  else (s1, none)

/-- A pair of distinct resolved addresses used to exhibit concrete
interleavings. -/
def addrFirst : Address := { displayName := "Chuy Avenue 1" }

/-- See `addrFirst`. -/
def addrSecond : Address := { displayName := "Toktogul Street 2" }

end Geo

/-- A sample Nominatim response whose address has a suburb but no city. -/
def suburbOnlyResponse : Geocoding.NominatimResponse :=
  { place_id := 1
    lat := 42.88
    lon := 74.60
    display_name := "Asanbay block"
    address := some { suburb := some "Asanbay" } }

/-- Consecutive inputs each arrive strictly less than 300ms after the
previous one (every gap is inside the debounce window). -/
def gapsFast : List (ℕ × String) → Bool
  | [] => true
  | [_] => true
  | (t, _) :: (t2, q2) :: rest => decide (t2 < t + 300) && gapsFast ((t2, q2) :: rest)

/-- An identity projection, a legitimate instance of the abstract map
projection used to instantiate hypotheses at concrete inputs. -/
def idProj : Proj :=
  ⟨fun l => ⟨l.lng, l.lat⟩, fun p => ⟨p.y, p.x⟩⟩

/-- C3: for every coordinate `p` and the fixed pixel offset, at a fixed zoom
(i.e. for any projection `m` whose two directions are mutually inverse, as
Leaflet's are at a fixed zoom), `toLogical (toOptical p) = p`, hence within
`COORD_EPSILON` componentwise: the `-PIN_OFFSET_PX` pixel shift of the
recenter effect and the `+PIN_OFFSET_PX` shift of the `moveend` handler are
exact inverses. -/
theorem toLogical_toOptical_roundTrip (m : Proj) (p : Location)
    (hpl : ∀ q, m.latLngToContainerPoint (m.containerPointToLatLng q) = q)
    (hlp : ∀ l, m.containerPointToLatLng (m.latLngToContainerPoint l) = l) :
    |(Pin.toLogical m (Pin.toOptical m p)).lat - p.lat| ≤ COORD_EPSILON ∧
    |(Pin.toLogical m (Pin.toOptical m p)).lng - p.lng| ≤ COORD_EPSILON := by
  have h : Pin.toLogical m (Pin.toOptical m p) = p := by
    simp only [Pin.toLogical, Pin.toOptical, hpl]
    have : (⟨(m.latLngToContainerPoint p).x,
        (m.latLngToContainerPoint p).y - PIN_OFFSET_PX + PIN_OFFSET_PX⟩ : Pixel) =
        m.latLngToContainerPoint p := by
      ext <;> simp
    rw [this, hlp]
  rw [h]
  constructor <;> simp [COORD_EPSILON]

/-- Witness for C3: the round-trip law applied to the identity projection at
the default center. -/
theorem toLogical_toOptical_roundTrip_witness :
    |(Pin.toLogical idProj (Pin.toOptical idProj BISHKEK_CENTER)).lat -
      BISHKEK_CENTER.lat| ≤ COORD_EPSILON ∧
    |(Pin.toLogical idProj (Pin.toOptical idProj BISHKEK_CENTER)).lng -
      BISHKEK_CENTER.lng| ≤ COORD_EPSILON :=
  toLogical_toOptical_roundTrip idProj BISHKEK_CENTER
    (fun q => rfl) (fun l => rfl)

/-- C1: while a `System`-origin (programmatic) move is pending
(`isProgrammaticMove = true`), a `movestart` event is never forwarded to the
owner (so it can never cause a `Preview` to `Panning` drawer transition), and
a `moveend` event is consumed silently: nothing is forwarded (no `toLogical`
recomputation reaches `onMoveEnd`, so no debounce or resolve is scheduled),
the marker is cleared, and `pendingCenter` is untouched. -/
theorem systemMove_not_forwarded (m : Proj) (s : Pin.ControllerState)
    (mc : Location) (h : s.isProgrammaticMove = true) :
    (Pin.step m s .movestart).2 = [] ∧
    (Pin.step m s (.moveend mc)).2 = [] ∧
    (Pin.step m s (.moveend mc)).1.isProgrammaticMove = false ∧
    (Pin.step m s (.moveend mc)).1.pendingCenter = s.pendingCenter := by
  simp [Pin.step, h]

/-- Witness for C1 at a concrete pending-programmatic-move state. -/
theorem systemMove_not_forwarded_witness :
    (Pin.step idProj ⟨true, none⟩ .movestart).2 = [] ∧
    (Pin.step idProj ⟨true, none⟩ (.moveend BISHKEK_CENTER)).2 = [] ∧
    (Pin.step idProj ⟨true, none⟩ (.moveend BISHKEK_CENTER)).1.isProgrammaticMove = false ∧
    (Pin.step idProj ⟨true, none⟩ (.moveend BISHKEK_CENTER)).1.pendingCenter =
      (Pin.ControllerState.mk true none).pendingCenter :=
  systemMove_not_forwarded idProj ⟨true, none⟩ BISHKEK_CENTER rfl

/-- C5: the drawer state machine starts in `preview`; a user-driven
`movestart` takes `preview` to `panning`; a settled `moveend` takes
`panning` back to `preview`; in `search` both camera events are no-ops; and
the unlisted edges (`movestart` in `panning`, `moveend` in `preview`) leave
the state unchanged. -/
theorem viewStateMachine_transitions :
    Pin.initialDrawerState = .preview ∧
    Pin.handleMapMoveStart .preview = .panning ∧
    Pin.handleMapMoveEnd .panning = .preview ∧
    Pin.handleMapMoveStart .search = .search ∧
    Pin.handleMapMoveEnd .search = .search ∧
    Pin.handleMapMoveStart .panning = .panning ∧
    Pin.handleMapMoveEnd .preview = .preview := by
  decide

/-- Counterexample for C9: the claim says a location within `COORD_EPSILON`
of the pending recenter target is skipped, but the `useEffect` guard compares
`lat`/`lng` with strict `===` equality: a center 0.00005 degrees of latitude
away from the pending value (well within `COORD_EPSILON = 0.0001`) is NOT
skipped — the recenter is issued again. -/
theorem recenterSkipped_epsilon_counterexample :
    |(Location.mk 42.87465 74.5698).lat - BISHKEK_CENTER.lat| ≤ COORD_EPSILON ∧
    |(Location.mk 42.87465 74.5698).lng - BISHKEK_CENTER.lng| ≤ COORD_EPSILON ∧
    Pin.recenterSkipped (some BISHKEK_CENTER) ⟨42.87465, 74.5698⟩ = false := by
  refine ⟨?_, ?_, ?_⟩
  · simp only [BISHKEK_CENTER, COORD_EPSILON]
    norm_num [abs_le]
  · simp only [BISHKEK_CENTER, COORD_EPSILON]
    norm_num
  · simp only [Pin.recenterSkipped, BISHKEK_CENTER, Bool.and_eq_false_iff,
      decide_eq_false_iff_not]
    norm_num

/-- C9 amended: the idempotence guard skips the programmatic recenter exactly
when a pending center exists and is componentwise strictly equal to the
incoming center (exact equality, not an epsilon tolerance). -/
theorem recenterSkipped_iff (pending : Option Location) (c : Location) :
    Pin.recenterSkipped pending c = true ↔ pending = some c := by
  cases pending with
  | none => simp [Pin.recenterSkipped]
  | some p =>
    simp only [Pin.recenterSkipped, Bool.and_eq_true, decide_eq_true_eq,
      Option.some.injEq]
    constructor
    · rintro ⟨h1, h2⟩
      ext <;> assumption
    · rintro rfl
      exact ⟨rfl, rfl⟩

/-- C10: `parseAddress` falls back to the suburb when the gateway omits the
city (`address?.city || address?.suburb`), always copies the suburb into
`district`, and hence can publish the same value in both `city` and
`district`. -/
theorem parseAddress_city_suburb :
    (∀ (d : Geocoding.NominatimResponse) (s : String),
      d.address.bind (fun a => a.city) = none →
      d.address.bind (fun a => a.suburb) = some s →
      (Geocoding.parseAddress d).city = some s) ∧
    (∀ (d : Geocoding.NominatimResponse) (s : String),
      d.address.bind (fun a => a.suburb) = some s →
      (Geocoding.parseAddress d).district = some s) ∧
    (∃ d : Geocoding.NominatimResponse,
      (Geocoding.parseAddress d).city = (Geocoding.parseAddress d).district ∧
      (Geocoding.parseAddress d).city ≠ none) := by
  refine ⟨?_, ?_, ?_⟩
  · intro d s h1 h2
    simp [Geocoding.parseAddress, Geocoding.jsOr, h1, h2]
  · intro d s h2
    simp [Geocoding.parseAddress, h2]
  · exact ⟨suburbOnlyResponse, rfl, Option.some_ne_none _⟩

/-- Witness for C10: a response with no city and suburb `"Asanbay"` parses
to `city = some "Asanbay"`. -/
theorem parseAddress_city_suburb_witness :
    (Geocoding.parseAddress suburbOnlyResponse).city = some "Asanbay" :=
  parseAddress_city_suburb.1 suburbOnlyResponse "Asanbay" rfl rfl

/-- Counterexample for C2: two reverse-geocode requests are issued in order,
the second's response arrives first and the first's response arrives last;
the code applies responses unconditionally in arrival order, so the final
`address` is the FIRST (superseded) request's result, not the second's —
there is no sequence number and no staleness discard anywhere in
`handleMapMoveEnd` or its continuation. -/
theorem stale_response_overwrites :
    (Geo.runRevEvents Geo.initialState
      [.issue ⟨42.88, 74.60⟩, .issue ⟨42.89, 74.61⟩,
       .resolve Geo.addrSecond, .resolve Geo.addrFirst]).address =
      some Geo.addrFirst ∧
    Geo.addrFirst ≠ Geo.addrSecond := by
  refine ⟨rfl, ?_⟩
  intro h
  simp [Geo.addrFirst, Geo.addrSecond] at h

/-- C2 amended: the snapshot's `address` is last-writer-wins in
response-arrival order — after any event sequence whose final event is a
response application, `address` equals that last response, regardless of
when its request was issued relative to others. -/
theorem lastResolve_wins (s : Geo.AppState) (es : List Geo.RevEvent)
    (a : Address) :
    (Geo.runRevEvents s (es ++ [.resolve a])).address = some a := by
  simp [Geo.runRevEvents, List.foldl_append, Geo.applyRevEvent,
    Geo.handleMapMoveEndResolve]

/-- Counterexample for C6: a gateway failure on the reverse-geocode path is
NOT mapped to `address = null`: `reverseGeocode` rethrows and
`handleMapMoveEnd` has no `try`/`catch`, so the rejection escapes the
handler, `loading` is left `true`, and the previous `address` is left in
place untouched. -/
theorem reverseFailure_unhandled :
    (Geo.handleMapMoveEnd { Geo.initialState with address := some Geo.addrFirst }
      ⟨42.88, 74.60⟩ .networkFailure).2 = some .network ∧
    (Geo.handleMapMoveEnd { Geo.initialState with address := some Geo.addrFirst }
      ⟨42.88, 74.60⟩ .networkFailure).1.loading = true ∧
    (Geo.handleMapMoveEnd { Geo.initialState with address := some Geo.addrFirst }
      ⟨42.88, 74.60⟩ .networkFailure).1.address = some Geo.addrFirst :=
  ⟨rfl, rfl, rfl⟩

/-- C6 amended: only the search path matches the claim — a failed search is
caught by the effect's `catch`/`finally` and mapped to `searchResults = []`
with `isSearching = false`; a failed reverse geocode instead escapes
`handleMapMoveEnd` as an uncaught rejection, leaving `loading = true` and
`address` unchanged. -/
theorem gatewayFailure_mapping (s : Geo.AppState) (loc : Location)
    (e : Geocoding.GeoError)
    (r : Geocoding.FetchOutcome Geocoding.NominatimResponse)
    (hr : Geocoding.reverseGeocode r = .error e) :
    (Geo.searchEffectResolve s (.error e)).searchResults = [] ∧
    (Geo.searchEffectResolve s (.error e)).isSearching = false ∧
    (Geo.handleMapMoveEnd s loc r).2 = some e ∧
    (Geo.handleMapMoveEnd s loc r).1.loading = true ∧
    (Geo.handleMapMoveEnd s loc r).1.address = s.address := by
  refine ⟨rfl, rfl, ?_, ?_, ?_⟩ <;>
    simp [Geo.handleMapMoveEnd, hr, Geo.handleMapMoveEndIssue]

/-- Witness for C6 amended at a concrete network failure. -/
theorem gatewayFailure_mapping_witness :
    (Geo.searchEffectResolve Geo.initialState (.error .network)).searchResults = [] ∧
    (Geo.searchEffectResolve Geo.initialState (.error .network)).isSearching = false ∧
    (Geo.handleMapMoveEnd Geo.initialState BISHKEK_CENTER .networkFailure).2 =
      some .network ∧
    (Geo.handleMapMoveEnd Geo.initialState BISHKEK_CENTER .networkFailure).1.loading =
      true ∧
    (Geo.handleMapMoveEnd Geo.initialState BISHKEK_CENTER .networkFailure).1.address =
      Geo.initialState.address :=
  gatewayFailure_mapping Geo.initialState BISHKEK_CENTER .network .networkFailure rfl

/-- Counterexample for C7: at construction the snapshot's `loading` flag is
`false` and `address` is `null` — the initial `useState` values — and no
mount-time effect issues a reverse geocode, so the claim's "`resolving` is
`true` from that moment" is false at the moment of construction itself. -/
theorem initialMount_not_resolving :
    Geo.initialState.loading = false ∧ Geo.initialState.address = none :=
  ⟨rfl, rfl⟩

/-- C7 amended: on mount the snapshot seeds the default center with
`loading = false` and `address = null`; no reverse geocode is issued until a
user-driven `moveend` is forwarded — in particular the pin-offset revision's
mount-time programmatic recenter (center-prop effect plus its own
`movestart`/`moveend`) forwards nothing to the handlers. -/
theorem initialMount_amended :
    Geo.initialState.center = BISHKEK_CENTER ∧
    Geo.initialState.loading = false ∧
    Geo.initialState.address = none ∧
    (∀ (m : Proj) (mc : Location),
      (Pin.runEvents m ⟨false, none⟩
        [.centerChanged BISHKEK_CENTER, .movestart, .moveend mc]).2 = []) := by
  refine ⟨rfl, rfl, rfl, ?_⟩
  intro m mc
  simp [Pin.runEvents, Pin.step, Pin.recenterSkipped]

/-- C8: selecting a search candidate at `(42.88, 74.60)` while the results
dropdown is open (the Search mode of this revision) closes the dropdown
(back to Preview), clears the query and the candidate list, and — once the
fly-to's 1500ms continuation has run — sets the selected center to
`(42.88, 74.60)`, whatever the subsequent reverse-geocode outcome. -/
theorem searchResultSelect_resets (s : Geo.AppState) (rid rname : String)
    (r : Geocoding.FetchOutcome Geocoding.NominatimResponse)
    (_hsearch : s.showResults = true) :
    (Geo.handleSearchResultSelect s true ⟨rid, rname, ⟨42.88, 74.60⟩⟩ r).1.showResults
      = false ∧
    (Geo.handleSearchResultSelect s true ⟨rid, rname, ⟨42.88, 74.60⟩⟩ r).1.searchQuery
      = "" ∧
    (Geo.handleSearchResultSelect s true ⟨rid, rname, ⟨42.88, 74.60⟩⟩ r).1.searchResults
      = [] ∧
    (Geo.handleSearchResultSelect s true ⟨rid, rname, ⟨42.88, 74.60⟩⟩ r).1.center
      = ⟨42.88, 74.60⟩ := by
  cases r <;> simp [Geo.handleSearchResultSelect, Geocoding.reverseGeocode]

/-- Witness for C8 from a concrete open-search state and outcome. -/
theorem searchResultSelect_resets_witness :
    (Geo.handleSearchResultSelect { Geo.initialState with showResults := true }
      true ⟨"1", "Ala-Too Square", ⟨42.88, 74.60⟩⟩ .httpNotOk).1.showResults
      = false ∧
    (Geo.handleSearchResultSelect { Geo.initialState with showResults := true }
      true ⟨"1", "Ala-Too Square", ⟨42.88, 74.60⟩⟩ .httpNotOk).1.searchQuery
      = "" ∧
    (Geo.handleSearchResultSelect { Geo.initialState with showResults := true }
      true ⟨"1", "Ala-Too Square", ⟨42.88, 74.60⟩⟩ .httpNotOk).1.searchResults
      = [] ∧
    (Geo.handleSearchResultSelect { Geo.initialState with showResults := true }
      true ⟨"1", "Ala-Too Square", ⟨42.88, 74.60⟩⟩ .httpNotOk).1.center
      = ⟨42.88, 74.60⟩ :=
  searchResultSelect_resets { Geo.initialState with showResults := true }
    "1" "Ala-Too Square" .httpNotOk rfl

/-- Helper: when every consecutive gap in the query sequence is under 300ms,
each scheduled timeout except the last is cleared before it can fire, so the
only delivery is the final (non-empty) query. -/
theorem searchSettled_of_fast (l : List (ℕ × String)) :
    ∀ (t : ℕ) (q : String), gapsFast l = true → l.getLast? = some (t, q) →
      blankQuery q = false → Geo.searchSettled l = [(t, q)] := by
  induction l with
  | nil =>
    intro t q _ hl _
    simp at hl
  | cons x rest ih =>
    intro t q hf hl hq
    cases rest with
    | nil =>
      obtain ⟨tx, qx⟩ := x
      simp only [List.getLast?_singleton, Option.some.injEq, Prod.mk.injEq] at hl
      obtain ⟨h1, h2⟩ := hl
      subst h1
      subst h2
      simp [Geo.searchSettled, hq]
    | cons y rest2 =>
      obtain ⟨tx, qx⟩ := x
      obtain ⟨ty, qy⟩ := y
      simp only [gapsFast, Bool.and_eq_true, decide_eq_true_eq] at hf
      have hl' : ((ty, qy) :: rest2).getLast? = some (t, q) := by
        rw [List.getLast?_cons_cons] at hl
        exact hl
      have hrec := ih t q hf.2 hl' hq
      have hnle : ¬ (tx + 300 ≤ ty) := by omega
      simp only [Geo.searchSettled, hnle, if_false]
      by_cases hqx : blankQuery qx = true <;> simp [hqx, hrec]

/-- Counterexample for C4: the camera channel has NO debounce window — two
`moveend` events 100ms apart (well inside the claimed 500ms quiet window)
each issue an immediate reverse-geocode, so two requests go out, the first
of them for the superseded value at time 0, instead of exactly one request
for the most recent value after 500ms of quiet. -/
theorem camera_not_debounced :
    (Geo.cameraResolutions [(0, ⟨42.88, 74.60⟩), (100, ⟨42.89, 74.61⟩)]).length
      = 2 ∧
    (Geo.cameraResolutions [(0, ⟨42.88, 74.60⟩), (100, ⟨42.89, 74.61⟩)]).head?
      = some (0, ⟨42.88, 74.60⟩) :=
  ⟨rfl, rfl⟩

/-- C4 amended: the search channel behaves as claimed with its 300ms window
— among inputs arriving faster than the window only the most recent
non-empty query is delivered, exactly once; the camera channel, however, has
no debounce at all: every `moveend` issues its reverse-geocode immediately. -/
theorem debounce_channels :
    (∀ (l : List (ℕ × String)) (t : ℕ) (q : String),
      gapsFast l = true → l.getLast? = some (t, q) → blankQuery q = false →
      Geo.searchSettled l = [(t, q)]) ∧
    (∀ es : List (ℕ × Location), Geo.cameraResolutions es = es) := by
  refine ⟨fun l => searchSettled_of_fast l, ?_⟩
  intro es
  induction es with
  | nil => rfl
  | cons e es ih =>
    obtain ⟨t, loc⟩ := e
    simp [Geo.cameraResolutions, ih]

/-- Witness for C4 amended: typing `"Chui"` then `"Chuy"` 100ms later
delivers exactly one settled query, `"Chuy"`. -/
theorem debounce_channels_witness :
    Geo.searchSettled [(0, "Chui"), (100, "Chuy")] = [(100, "Chuy")] :=
  debounce_channels.1 [(0, "Chui"), (100, "Chuy")] 100 "Chuy" (by decide)
    (by decide) (by decide)
